import Mathlib

/-!
Shallow embedding of src/MapGraphs/Digraph.hpp (class template Digraph).

The container is std::map<int, DigraphVertex<VertexInfo, EdgeInfo>>, here an
association list sorted by key in the order std::map iterates.  Payload types
are the type parameters V and E.  double-valued edge weights and tentative
distances are modelled as integers: every numeric literal the source's
algorithms use (0, 8000000000000 and 80000000000000) is an integer, every
weight appearing in the claims is a small integer, and double arithmetic
(addition, comparison) is exact on integers of this size, so the integer
model computes exactly what the double computation does on these inputs.

Digraph.hpp throws DigraphException carrying only a reason string, and it uses
exactly three string literals; DigraphReason enumerates them.  Three member
functions of the source can fail to produce any defined value at all:
edgeCount() accumulates into an uninitialized int (modelled by an explicit
initial-value parameter), findMinimum() can return an uninitialized vertex
number (modelled as Option), and removeVertex()/removeEdge() increment a
std::list iterator that erase() has just invalidated (modelled as a distinct
undefined-behavior outcome).  The recursive checkConnectivity() and the
Dijkstra loop need not terminate on every input, so both take explicit fuel
and answer none when it runs out.
-/

namespace MapGraphs

/-- Reasons of the DigraphException values Digraph.hpp throws: the source uses
exactly the three string literals rendered here as constructors
(invalidVertex for the literal starting Invalid and ending vertex,
invalidEdge for the literal starting Invalid and ending edge, and
vertexAlreadyExists for the literal saying the vertex already exists). -/
inductive DigraphReason where
  | invalidVertex
  | invalidEdge
  | vertexAlreadyExists
  deriving DecidableEq

/-- Edge record (struct DigraphEdge): source, destination, payload. -/
structure DigraphEdge (E : Type) where
  fromVertex : Int
  toVertex : Int
  einfo : E
  deriving DecidableEq

/-- Vertex record (struct DigraphVertex): payload and the list of outgoing
edges. -/
structure DigraphVertex (V E : Type) where
  vinfo : V
  edges : List (DigraphEdge E)
  deriving DecidableEq

/-- The Digraph container: its sole member is
std::map<int, DigraphVertex<V, E>> named info, modelled as an association
list sorted ascending by key. -/
structure Digraph (V E : Type) where
  info : List (Int × DigraphVertex V E)
  deriving DecidableEq

/-- std::map::find / count as a boolean membership test on the key. -/
def mapContains {A : Type} : List (Int × A) → Int → Bool
  | [], _ => false
  | p :: rest, k => p.1 == k || mapContains rest k

/-- std::map::find / at as a lookup on the key. -/
def mapLookup {A : Type} : List (Int × A) → Int → Option A
  | [], _ => none
  | p :: rest, k => if p.1 == k then some p.2 else mapLookup rest k

/-- std::map::insert of a key known to be absent, keeping the list sorted. -/
def mapInsertNew {A : Type} : List (Int × A) → Int → A → List (Int × A)
  | [], k, a => [(k, a)]
  | p :: rest, k, a =>
    if k < p.1 then (k, a) :: p :: rest else p :: mapInsertNew rest k a

/-- Assignment through std::map::operator[]: replace the value at the key, or
insert the key in sorted position when it is absent. -/
def mapAssign : List (Int × Int) → Int → Int → List (Int × Int)
  | [], k, a => [(k, a)]
  | p :: rest, k, a =>
    if k < p.1 then (k, a) :: p :: rest
    else if p.1 == k then (k, a) :: rest
    else p :: mapAssign rest k a

/-- In-place modification of the mapped value at a key
(info.at(k) used as an lvalue). -/
def mapAdjust {A : Type} : List (Int × A) → Int → (A → A) → List (Int × A)
  | [], _, _ => []
  | p :: rest, k, f =>
    (if p.1 == k then (p.1, f p.2) else p) :: mapAdjust rest k f

/-- std::map::erase on a key. -/
def mapErase {A : Type} : List (Int × A) → Int → List (Int × A)
  | [], _ => []
  | p :: rest, k => if p.1 == k then mapErase rest k else p :: mapErase rest k

/-- std::find over a vector of (from, to) pairs, as the source uses to test
edge presence. -/
def pairMem : List (Int × Int) → Int × Int → Bool
  | [], _ => false
  | q :: rest, pr => (q.1 == pr.1 && q.2 == pr.2) || pairMem rest pr

/-- Result of a const query member: a returned value, a thrown
DigraphException, or no defined result (control reaching the end of a
non-void function). -/
inductive QueryResult (A : Type) where
  | ok (a : A)
  | err (reason : DigraphReason)
  | ub
  deriving DecidableEq

/-- Result of a mutating member: the new graph, a thrown DigraphException
together with the graph at the moment of the throw, or undefined behavior
(incrementing a std::list iterator that erase() invalidated). -/
inductive MutOutcome (V E : Type) where
  | ok (g : Digraph V E)
  | err (reason : DigraphReason) (g : Digraph V E)
  | ub
  deriving DecidableEq

/-- The graph an err outcome carries, and the supplied default otherwise. -/
def graphIfErr {V E : Type} : MutOutcome V E → Digraph V E → Digraph V E
  | .err _ g, _ => g
  | _, dflt => dflt

/-- vertices(): the keys of info in iteration order. -/
def vertices {V E : Type} (g : Digraph V E) : List Int :=
  g.info.map (fun p => p.1)

/-- Edge pairs contributed by a list of map entries, reading each stored
edge record's own fromVertex and toVertex fields, as edges() does. -/
def edgesOf {V E : Type} : List (Int × DigraphVertex V E) → List (Int × Int)
  | [] => []
  | p :: rest => p.2.edges.map (fun e => (e.fromVertex, e.toVertex)) ++ edgesOf rest

/-- edges(): all (from, to) pairs of the graph. -/
def edgesAll {V E : Type} (g : Digraph V E) : List (Int × Int) :=
  edgesOf g.info

/-- The pair list the one-argument edges(vertex) builds internally: it pairs
the queried vertex number itself with each stored toVertex.  Empty when the
vertex is absent (the caller checks first). -/
def outPairs {V E : Type} (g : Digraph V E) (v : Int) : List (Int × Int) :=
  match mapLookup g.info v with
  | some vert => vert.edges.map (fun e => (v, e.toVertex))
  | none => []

/-- edges(vertex): throws for an absent vertex, else the outgoing pairs. -/
def edgesFrom {V E : Type} (g : Digraph V E) (v : Int) :
    QueryResult (List (Int × Int)) :=
  match mapLookup g.info v with
  | none => .err .invalidVertex
  | some vert => .ok (vert.edges.map (fun e => (v, e.toVertex)))

/-- vertexInfo(vertex). -/
def vertexInfo {V E : Type} (g : Digraph V E) (v : Int) : QueryResult V :=
  match mapLookup g.info v with
  | none => .err .invalidVertex
  | some vert => .ok vert.vinfo

/-- edgeInfo(from, to): the endpoint check and the edge-existence check both
throw with the same reason; then the loop returns the first stored edge whose
toVertex matches, falling off the end (ub) if none does. -/
def edgeInfo {V E : Type} (g : Digraph V E) (src dst : Int) : QueryResult E :=
  if !(mapContains g.info src) || !(mapContains g.info dst) then .err .invalidEdge
  else if !(pairMem (outPairs g src) (src, dst)) then .err .invalidEdge
  else
    match (mapLookup g.info src).bind
        (fun vert => vert.edges.find? (fun e => e.toVertex == dst)) with
    | some e => .ok e.einfo
    | none => .ub

/-- addVertex(vertex, vinfo). -/
def addVertex {V E : Type} (g : Digraph V E) (v : Int) (vinfo : V) :
    MutOutcome V E :=
  if mapContains g.info v then .err .vertexAlreadyExists g
  else .ok ⟨mapInsertNew g.info v ⟨vinfo, []⟩⟩

/-- addEdge(from, to, einfo): both failure checks throw with the same reason;
success appends the new edge record to the source vertex's list. -/
def addEdge {V E : Type} (g : Digraph V E) (src dst : Int) (einfo : E) :
    MutOutcome V E :=
  if !(mapContains g.info src) || !(mapContains g.info dst) then .err .invalidEdge g
  else if pairMem (outPairs g src) (src, dst) then .err .invalidEdge g
  else .ok ⟨mapAdjust g.info src
      (fun vert => ⟨vert.vinfo, vert.edges ++ [⟨src, dst, einfo⟩]⟩)⟩

/-- The erase-while-iterating loop of removeVertex and removeEdge: walking a
std::list, erasing the current node when its toVertex matches, and then
incrementing the iterator.  erase() invalidates the iterator, so the
increment that follows an erase is undefined behavior: the loop has a defined
result (the list it leaves behind, unchanged) only when no node matches. -/
def eraseThenAdvance {E : Type} (dst : Int) :
    List (DigraphEdge E) → Option (List (DigraphEdge E))
  | [] => some []
  | e :: rest =>
    if e.toVertex == dst then none
    else (eraseThenAdvance dst rest).map (fun l => e :: l)

/-- Collects a list of optional values, none if any is none. -/
def optionAll {A : Type} : List (Option A) → Option (List A)
  | [] => some []
  | none :: _ => none
  | some a :: rest => (optionAll rest).map (fun l => a :: l)

/-- removeVertex(vertex): after the presence check it erases the vertex, then
runs the erase-while-iterating loop over every remaining vertex's edge list;
whenever an incoming edge actually exists that loop increments an invalidated
iterator, so the call as a whole is undefined behavior. -/
def removeVertex {V E : Type} (g : Digraph V E) (v : Int) : MutOutcome V E :=
  if !(mapContains g.info v) then .err .invalidVertex g
  else
    match optionAll ((mapErase g.info v).map
        (fun p => (eraseThenAdvance v p.2.edges).map
          (fun es => (p.1, DigraphVertex.mk p.2.vinfo es)))) with
    | none => .ub
    | some m2 => .ok ⟨mapErase m2 v⟩

/-- removeEdge(from, to): both failure checks throw with the same reason; on
success the loop erases the matching node and then increments the invalidated
iterator, which is undefined behavior (the edge-existence check guarantees a
matching node, so every non-throwing call is undefined). -/
def removeEdge {V E : Type} (g : Digraph V E) (src dst : Int) : MutOutcome V E :=
  if !(mapContains g.info src) || !(mapContains g.info dst) then .err .invalidEdge g
  else if !(pairMem (outPairs g src) (src, dst)) then .err .invalidEdge g
  else
    match (mapLookup g.info src).bind (fun vert => eraseThenAdvance dst vert.edges) with
    | none => .ub
    | some es => .ok ⟨mapAdjust g.info src (fun vert => ⟨vert.vinfo, es⟩)⟩

/-- vertexCount(). -/
def vertexCount {V E : Type} (g : Digraph V E) : Int :=
  g.info.length

/-- edgeCount() with no argument: the source declares int total without
initializing it and accumulates the per-vertex list sizes into it, so the
returned value is the indeterminate initial value of total plus the sum; that
indeterminate value is the explicit totalInit parameter here. -/
def edgeCountTotal {V E : Type} (g : Digraph V E) (totalInit : Int) : Int :=
  g.info.foldl (fun t p => t + p.2.edges.length) totalInit

/-- edgeCount(vertex): the out-degree, after the presence check. -/
def edgeCountFrom {V E : Type} (g : Digraph V E) (v : Int) : QueryResult Int :=
  match mapLookup g.info v with
  | none => .err .invalidVertex
  | some vert => .ok vert.edges.length

/-- vertexCount() as a Nat, the vertice.size() the connectivity check
compares against. -/
def vertexCountNat {V E : Type} (g : Digraph V E) : Nat :=
  g.info.length

/-- Loop body of checkConnectivity(from, visited) over the edge list of the
current vertex.  Per edge: an unvisited target is appended to visited; a
visited target either triggers a recursive call whose boolean result the
source ignores (when visited is still smaller than vertice.size()-1, in
size_t arithmetic) or makes the function return true.  Falling off the loop
returns false.  The recursion need not terminate, so it burns fuel; none
means the call never returned.  visited is passed by value, so the loop
resumes with its own visited after a recursive call. -/
def ccEdges {V E : Type} (g : Digraph V E) :
    Nat → List (DigraphEdge E) → List Int → Option Bool
  | 0, _, _ => none
  | _ + 1, [], _ => some false
  | fuel + 1, e :: rest, visited =>
    if visited.contains e.toVertex then
      if visited.length < vertexCountNat g - 1 then
        match (match mapLookup g.info e.toVertex with
               | none => none
               | some vert => ccEdges g fuel vert.edges visited) with
        | none => none
        | some _ => ccEdges g fuel rest visited
      else some true
    else ccEdges g fuel rest (visited ++ [e.toVertex])

/-- checkConnectivity(from, visited): info.at(from) then the loop above. -/
def checkConnectivity {V E : Type} (g : Digraph V E) (fuel : Nat) (src : Int)
    (visited : List Int) : Option Bool :=
  match mapLookup g.info src with
  | none => none
  | some vert => ccEdges g fuel vert.edges visited

/-- Loop of isStronglyConnected() over the vertices: false as soon as one
checkConnectivity call answers false, true when all answered true. -/
def iscAll {V E : Type} (g : Digraph V E) (fuel : Nat) : List Int → Option Bool
  | [] => some true
  | v :: rest =>
    match checkConnectivity g fuel v [] with
    | none => none
    | some false => some false
    | some true => iscAll g fuel rest

/-- isStronglyConnected(), with fuel for the unbounded recursion inside. -/
def isStronglyConnected {V E : Type} (g : Digraph V E) (fuel : Nat) : Option Bool :=
  iscAll g fuel (vertices g)

/-- findMinimum(vertices, shortestDist): minVal starts at the literal
8000000000000 and minVert starts uninitialized; the scan assigns minVert only
on a strictly smaller distance.  none models returning the uninitialized
minVert, which is undefined behavior. -/
def findMinimum (vs : List Int) (dist : Int → Int) : Option Int :=
  (vs.foldl
    (fun acc v => if dist v < acc.1 then (dist v, some v) else acc)
    ((8000000000000 : Int), (none : Option Int))).2

/-- Pointwise update of a distance table, as operator[] assignment. -/
def updFn (d : Int → Int) (k : Int) (x : Int) : Int → Int :=
  fun j => if j == k then x else d j

/-- The erase of the chosen vertex from the unvisited vector: the index scan
with break removes the first occurrence. -/
def eraseFirst : List Int → Int → List Int
  | [], _ => []
  | x :: rest, v => if x == v then rest else x :: eraseFirst rest v

/-- Relaxation of one outgoing edge of the current vertex: distances and the
predecessor map update exactly when the new distance is strictly smaller. -/
def relaxStep {E : Type} (w : E → Int) (current : Int)
    (dp : (Int → Int) × List (Int × Int)) (e : DigraphEdge E) :
    (Int → Int) × List (Int × Int) :=
  let distance := dp.1 current + w e.einfo
  if distance < dp.1 e.toVertex then
    (updFn dp.1 e.toVertex distance, mapAssign dp.2 e.toVertex current)
  else dp

/-- Main loop of findShortestPaths: while the unvisited vector is nonempty,
pick findMinimum's vertex (none propagates the uninitialized minVert), erase
it, and relax its outgoing edges.  One fuel per iteration; the caller
supplies more fuel than the vector's length, so none never means exhaustion
on a run whose every step is defined. -/
def dijkstraLoop {V E : Type} (g : Digraph V E) (w : E → Int) :
    Nat → List Int → (Int → Int) → List (Int × Int) → Option (List (Int × Int))
  | 0, _, _, _ => none
  | _ + 1, [], _, path => some path
  | fuel + 1, v :: rest, dist, path =>
    match findMinimum (v :: rest) dist with
    | none => none
    | some current =>
      match mapLookup g.info current with
      | none => none
      | some vert =>
        let dp := vert.edges.foldl (relaxStep w current) (dist, path)
        dijkstraLoop g w fuel (eraseFirst (v :: rest) current) dp.1 dp.2

/-- findShortestPaths(startVertex, edgeWeightFunc): every vertex's tentative
distance starts at the literal 80000000000000 (operator[] default-inserts 0
for keys outside the map), the start vertex is then set to distance 0 and
made its own predecessor, and the loop runs to an empty unvisited vector. -/
def findShortestPaths {V E : Type} (g : Digraph V E) (start : Int) (w : E → Int) :
    Option (List (Int × Int)) :=
  let vs := vertices g
  let dist0 : Int → Int := fun v => if vs.contains v then 80000000000000 else 0
  dijkstraLoop g w (vs.length + 1) vs (updFn dist0 start 0) (mapAssign [] start start)

/-- The empty graph over Int payloads. -/
def gEmpty : Digraph Int Int := ⟨[]⟩

/-- One vertex, number 1, no edges. -/
def gOneVertex : Digraph Int Int := ⟨[(1, ⟨0, []⟩)]⟩

/-- Two isolated vertices 1 and 2. -/
def gTwoIsolated : Digraph Int Int := ⟨[(1, ⟨0, []⟩), (2, ⟨0, []⟩)]⟩

/-- Vertices 1, 2 and the single edge from 1 to 2. -/
def gEdge12 : Digraph Int Int := ⟨[(1, ⟨0, [⟨1, 2, 0⟩]⟩), (2, ⟨0, []⟩)]⟩

/-- Vertices 1, 2 and the single edge from 2 to 1 (an incoming edge of 1). -/
def gIncoming1 : Digraph Int Int := ⟨[(1, ⟨0, []⟩), (2, ⟨0, [⟨2, 1, 0⟩]⟩)]⟩

/-- The directed 2-cycle on vertices 1, 2. -/
def gCycle2 : Digraph Int Int := ⟨[(1, ⟨0, [⟨1, 2, 0⟩]⟩), (2, ⟨0, [⟨2, 1, 0⟩]⟩)]⟩

/-- The directed 3-cycle on vertices 1, 2, 3. -/
def gCycle3 : Digraph Int Int :=
  ⟨[(1, ⟨0, [⟨1, 2, 0⟩]⟩), (2, ⟨0, [⟨2, 3, 0⟩]⟩), (3, ⟨0, [⟨3, 1, 0⟩]⟩)]⟩

/-- Vertices 1, 2, 3 with the single edge from 1 to 2 of weight 1 (the edge
payload is the weight and the weight function is the identity); vertex 3 is
unreachable from 1. -/
def gPartReach : Digraph Int Int :=
  ⟨[(1, ⟨0, [⟨1, 2, 1⟩]⟩), (2, ⟨0, []⟩), (3, ⟨0, []⟩)]⟩

/-- The three-vertex graph of the spec's shortest-path test: edges from 1 to
2 of weight 1, from 2 to 3 of weight 1, and from 1 to 3 of weight 5 (the
edge payload is the weight and the weight function is the identity). -/
def gSpecTriangle : Digraph Int Int :=
  ⟨[(1, ⟨0, [⟨1, 2, 1⟩, ⟨1, 3, 5⟩]⟩), (2, ⟨0, [⟨2, 3, 1⟩]⟩), (3, ⟨0, []⟩)]⟩

/-- A lookup that finds a value implies a positive membership test. -/
theorem mapContains_of_lookup {A : Type} {m : List (Int × A)} {k : Int} {a : A}
    (h : mapLookup m k = some a) : mapContains m k = true := by
  induction m with
  | nil => simp [mapLookup] at h
  | cons q rest ih =>
    by_cases hq : (q.1 == k) = true
    · simp [mapContains, hq]
    · simp only [mapLookup, hq, if_neg, Bool.not_eq_true] at h
      · simp [mapContains, hq, ih h]

/-- A negative membership test implies the lookup finds nothing. -/
theorem mapLookup_none_of_contains_false {A : Type} {m : List (Int × A)} {k : Int}
    (h : mapContains m k = false) : mapLookup m k = none := by
  induction m with
  | nil => rfl
  | cons q rest ih =>
    simp only [mapContains, Bool.or_eq_false_iff] at h
    simp [mapLookup, h.1, ih h.2]

/-- Adjusting the value at a key changes what lookup finds there by exactly
the adjustment. -/
theorem mapLookup_mapAdjust_self {A : Type} {m : List (Int × A)} {k : Int} {a : A}
    (f : A → A) (h : mapLookup m k = some a) :
    mapLookup (mapAdjust m k f) k = some (f a) := by
  induction m with
  | nil => simp [mapLookup] at h
  | cons q rest ih =>
    by_cases hq : (q.1 == k) = true
    · simp [mapLookup, hq] at h
      simp [mapAdjust, mapLookup, hq, h]
    · simp only [mapLookup, hq, if_neg, Bool.not_eq_true] at h
      · simp [mapAdjust, mapLookup, hq, ih h]

/-- Adjusting a value leaves every membership test unchanged. -/
theorem mapContains_mapAdjust {A : Type} (m : List (Int × A)) (k j : Int) (f : A → A) :
    mapContains (mapAdjust m k f) j = mapContains m j := by
  induction m with
  | nil => rfl
  | cons q rest ih =>
    by_cases hq : (q.1 == k) = true
    · simp [mapAdjust, mapContains, hq, ih]
    · simp [mapAdjust, mapContains, hq, ih]

/-- An edge stored under a present key contributes its (from, to) pair to
the pair list of edges(). -/
theorem mem_edgesOf_of_lookup {V E : Type} {m : List (Int × DigraphVertex V E)}
    {k : Int} {vert : DigraphVertex V E} (h : mapLookup m k = some vert)
    {e : DigraphEdge E} (he : e ∈ vert.edges) :
    (e.fromVertex, e.toVertex) ∈ edgesOf m := by
  induction m with
  | nil => simp [mapLookup] at h
  | cons q rest ih =>
    by_cases hq : (q.1 == k) = true
    · simp [mapLookup, hq] at h
      subst h
      exact List.mem_append_left _ (List.mem_map_of_mem _ he)
    · simp only [mapLookup, hq, if_neg, Bool.not_eq_true] at h
      · exact List.mem_append_right _ (ih h)

/-- The pair search distributes over list concatenation. -/
theorem pairMem_append (l1 l2 : List (Int × Int)) (x : Int × Int) :
    pairMem (l1 ++ l2) x = (pairMem l1 x || pairMem l2 x) := by
  induction l1 with
  | nil => simp [pairMem]
  | cons q rest ih => simp [pairMem, ih, Bool.or_assoc]

/-- When no stored edge targets v, the outgoing pair list does not contain
the pair ending in v. -/
theorem pairMem_map_out_false {E : Type} {l : List (DigraphEdge E)} {s v : Int}
    (h : ∀ e ∈ l, (e.toVertex == v) = false) :
    pairMem (l.map (fun e => (s, e.toVertex))) (s, v) = false := by
  induction l with
  | nil => rfl
  | cons e rest ih =>
    simp only [List.map_cons, pairMem]
    rw [h e (List.mem_cons_self e rest), ih (fun x hx => h x (List.mem_cons_of_mem e hx))]
    simp

/-- C1: the claim says findShortestPaths(start, weightFn) returns a map whose
key set is all vertex identifiers, with the start vertex and every vertex
unreachable from start mapped to themselves.  On the two-vertex edgeless
graph with start 1, vertex 2 is unreachable: its tentative distance stays at
the init literal 80000000000000, which is not below findMinimum's threshold
literal 8000000000000, so once only vertex 2 is unvisited findMinimum returns
its uninitialized minVert and the call produces no defined result at all (and
the map under construction never received the key 2, since only relaxed
vertices and the start are ever inserted). -/
theorem c1_unreachable_vertex_no_result :
    findShortestPaths gTwoIsolated 1 (fun _ => 1) = none := by decide

/-- C2: the claim says isStronglyConnected() is true on a directed cycle of
N vertices.  On the 2-cycle and the 3-cycle the code answers false: called
with an empty visited list, checkConnectivity only ever appends each distinct
edge target to visited and then falls off its loop returning false, so the
very first vertex already makes isStronglyConnected false.  The answer is
independent of the recursion fuel because the recursive branch is never
reached from an empty visited list. -/
theorem c2_cycle_reported_not_connected :
    isStronglyConnected gCycle2 2 = some false ∧
    isStronglyConnected gCycle3 3 = some false := by decide

/-- C3: the claim says isStronglyConnected() is true on the empty graph and
on a single-vertex graph with no edges.  The empty graph holds (the loop over
vertices runs zero times and returns true), but on the one-vertex graph
checkConnectivity(1, empty) has no edges to walk and returns false, so
isStronglyConnected answers false. -/
theorem c3_single_vertex_reported_not_connected :
    isStronglyConnected gEmpty 1 = some true ∧
    isStronglyConnected gOneVertex 1 = some false := by decide

/-- C4: on the graph with vertices 1, 2, 3 and edges 1 to 2 (weight 1), 2 to
3 (weight 1), 1 to 3 (weight 5), findShortestPaths from 1 with the identity
weight function returns exactly the predecessor map sending 1 to 1, 2 to 1
and 3 to 2: the two-hop path through vertex 2 beats the direct edge. -/
theorem c4_triangle_shortest_paths :
    findShortestPaths gSpecTriangle 1 (fun x => x) = some [(1, 1), (2, 1), (3, 2)] := by
  decide

/-- C5: the claim says removeVertex(v) leaves no edge referencing v.  On the
graph with vertices 1, 2 and the edge from 2 to 1, removeVertex(1) reaches
vertex 2's incoming edge, erases that list node and then increments the
iterator that erase() just invalidated, which is undefined behavior: the call
has no defined outcome, so the claimed postcondition is not delivered. -/
theorem c5_removeVertex_incoming_edge_ub :
    removeVertex gIncoming1 1 = .ub := by decide

/-- C6: every mutation that fails throws before touching the structure.  The
first six conjuncts show each documented failure (duplicate vertex, missing
addEdge endpoint, duplicate edge, missing removeVertex target, missing
removeEdge endpoint, missing edge) returns an err outcome carrying the graph
exactly as it was passed in; the last four show that every err outcome any of
the four mutations can produce carries the unmodified input graph. -/
theorem c6_failed_mutation_leaves_graph_unchanged {V E : Type} (g : Digraph V E)
    (v w : Int) (p : V) (q : E) :
    (mapContains g.info v = true → addVertex g v p = .err .vertexAlreadyExists g) ∧
    (mapContains g.info v = false ∨ mapContains g.info w = false →
      addEdge g v w q = .err .invalidEdge g) ∧
    (pairMem (outPairs g v) (v, w) = true → addEdge g v w q = .err .invalidEdge g) ∧
    (mapContains g.info v = false → removeVertex g v = .err .invalidVertex g) ∧
    (mapContains g.info v = false ∨ mapContains g.info w = false →
      removeEdge g v w = .err .invalidEdge g) ∧
    (pairMem (outPairs g v) (v, w) = false → removeEdge g v w = .err .invalidEdge g) ∧
    graphIfErr (addVertex g v p) g = g ∧
    graphIfErr (addEdge g v w q) g = g ∧
    graphIfErr (removeVertex g v) g = g ∧
    graphIfErr (removeEdge g v w) g = g := by
  refine ⟨?_, ?_, ?_, ?_, ?_, ?_, ?_, ?_, ?_, ?_⟩
  · intro h; simp [addVertex, h]
  · rintro (h | h) <;> simp [addEdge, h]
  · intro h
    cases hv : mapContains g.info v <;> cases hw : mapContains g.info w <;>
      simp [addEdge, hv, hw, h]
  · intro h; simp [removeVertex, h]
  · rintro (h | h) <;> simp [removeEdge, h]
  · intro h
    cases hv : mapContains g.info v <;> cases hw : mapContains g.info w <;>
      simp [removeEdge, hv, hw, h]
  · cases hv : mapContains g.info v <;> simp [addVertex, graphIfErr, hv]
  · cases hv : mapContains g.info v <;> cases hw : mapContains g.info w <;>
      cases hpm : pairMem (outPairs g v) (v, w) <;>
      simp [addEdge, graphIfErr, hv, hw, hpm]
  · cases hv : mapContains g.info v
    · simp [removeVertex, graphIfErr, hv]
    · cases ho : optionAll ((mapErase g.info v).map
          (fun p => (eraseThenAdvance v p.2.edges).map
            (fun es => (p.1, DigraphVertex.mk p.2.vinfo es)))) <;>
        simp [removeVertex, graphIfErr, hv, ho]
  · cases hv : mapContains g.info v <;> cases hw : mapContains g.info w <;>
      cases hpm : pairMem (outPairs g v) (v, w) <;>
      cases ho : (mapLookup g.info v).bind (fun vert => eraseThenAdvance w vert.edges) <;>
      simp [removeEdge, graphIfErr, hv, hw, hpm, ho]

/-- Concrete instances of the failure cases above: a duplicate addVertex, a
duplicate addEdge, a removeVertex of an absent vertex and a removeEdge of an
absent edge each throw and return the graph they were given. -/
theorem c6_failed_mutation_witness :
    addVertex gOneVertex 1 0 = .err .vertexAlreadyExists gOneVertex ∧
    addEdge gEdge12 1 2 0 = .err .invalidEdge gEdge12 ∧
    removeVertex gOneVertex 2 = .err .invalidVertex gOneVertex ∧
    removeEdge gTwoIsolated 1 2 = .err .invalidEdge gTwoIsolated := by
  have h1 := c6_failed_mutation_leaves_graph_unchanged gOneVertex 1 2 0 0
  have h2 := c6_failed_mutation_leaves_graph_unchanged gEdge12 1 2 0 0
  have h3 := c6_failed_mutation_leaves_graph_unchanged gOneVertex 2 1 0 0
  have h4 := c6_failed_mutation_leaves_graph_unchanged gTwoIsolated 1 2 0 0
  exact ⟨h1.1 (by decide), h2.2.2.1 (by decide), h3.2.2.2.1 (by decide),
    h4.2.2.2.2.2.1 (by decide)⟩

/-- C7: the claim says the no-argument edgeCount() returns the total number
of edges, i.e. the length of edges().  The accumulator is never initialized,
so the return value is the indeterminate initial value plus the edge total:
on the one-edge graph, an initial value of 7 yields 8 while the real total,
and the value an initial 0 would give, is 1. -/
theorem c7_edgeCount_uninitialized_total :
    edgeCountTotal gEdge12 7 = 8 ∧ edgeCountTotal gEdge12 0 = 1 ∧
    (edgesAll gEdge12).length = 1 := by decide

/-- C8: the claim says findShortestPaths terminates with a deterministic
result even when some vertices are unreachable from start.  Once every
remaining unvisited vertex still holds the init distance 80000000000000,
which is not below findMinimum's threshold 8000000000000, findMinimum
assigns minVert on no iteration and returns it uninitialized: shown first on
the one-element vector directly, then for the full run on the three-vertex
graph whose vertex 3 is unreachable from start 1, which reaches that state
and so has no defined, deterministic result. -/
theorem c8_findMinimum_uninitialized :
    findMinimum [2] (fun v => if v == 2 then (80000000000000 : Int) else 0) = none ∧
    findShortestPaths gPartReach 1 (fun x => x) = none := by decide

/-- C9 counterexample: the claim says addEdge signals NoSuchVertex for an
absent endpoint but the distinct error DuplicateEdge for a duplicate pair,
and that edgePayload and removeEdge distinguish NoSuchVertex from NoSuchEdge.
The only error channel is the DigraphException reason, and at these concrete
inputs the absent-endpoint failure (first member of each pair of conjuncts,
on a graph missing vertex 2) and the duplicate or missing-edge failure
(second member, on graphs containing both endpoints) carry the identical
reason, so the caller cannot distinguish the kinds. -/
theorem c9_error_kinds_indistinguishable :
    addEdge gOneVertex 1 2 0 = .err .invalidEdge gOneVertex ∧
    addEdge gEdge12 1 2 0 = .err .invalidEdge gEdge12 ∧
    removeEdge gOneVertex 1 2 = .err .invalidEdge gOneVertex ∧
    removeEdge gTwoIsolated 1 2 = .err .invalidEdge gTwoIsolated ∧
    edgeInfo gOneVertex 1 2 = .err .invalidEdge ∧
    edgeInfo gTwoIsolated 1 2 = .err .invalidEdge := by decide

/-- C9 amended: every failing operation throws a DigraphException whose only
content is a reason string; a duplicate addVertex says the vertex already
exists, a missing-vertex removeVertex or vertexInfo says invalid vertex, and
addEdge, removeEdge and edgeInfo say invalid edge both when an endpoint is
absent and when the edge-existence check fails, so vertex errors are
distinguishable from edge errors but the absent-endpoint and
duplicate-or-missing-edge cases of the edge operations are not. -/
theorem c9_error_reasons_amended {V E : Type} (g : Digraph V E) (s d : Int)
    (p : V) (q : E) :
    (mapContains g.info s = false ∨ mapContains g.info d = false →
      addEdge g s d q = .err .invalidEdge g ∧
      removeEdge g s d = .err .invalidEdge g ∧
      edgeInfo g s d = .err .invalidEdge) ∧
    (pairMem (outPairs g s) (s, d) = true → addEdge g s d q = .err .invalidEdge g) ∧
    (pairMem (outPairs g s) (s, d) = false →
      removeEdge g s d = .err .invalidEdge g ∧ edgeInfo g s d = .err .invalidEdge) ∧
    (mapContains g.info s = true → addVertex g s p = .err .vertexAlreadyExists g) ∧
    (mapContains g.info s = false →
      removeVertex g s = .err .invalidVertex g ∧ vertexInfo g s = .err .invalidVertex) := by
  refine ⟨?_, ?_, ?_, ?_, ?_⟩
  · rintro (h | h) <;> simp [addEdge, removeEdge, edgeInfo, h]
  · intro h
    cases hs : mapContains g.info s <;> cases hd : mapContains g.info d <;>
      simp [addEdge, hs, hd, h]
  · intro h
    cases hs : mapContains g.info s <;> cases hd : mapContains g.info d <;>
      simp [removeEdge, edgeInfo, hs, hd, h]
  · intro h; simp [addVertex, h]
  · intro h
    exact ⟨by simp [removeVertex, h],
      by simp [vertexInfo, mapLookup_none_of_contains_false h]⟩

/-- Concrete instances of the amended error taxonomy: an absent endpoint and
a missing edge both yield the invalid-edge reason. -/
theorem c9_error_reasons_witness :
    addEdge gOneVertex 1 2 (0 : Int) = .err .invalidEdge gOneVertex ∧
    removeEdge gTwoIsolated 1 2 = .err .invalidEdge gTwoIsolated ∧
    edgeInfo gTwoIsolated 1 2 = .err .invalidEdge := by
  have h1 := c9_error_reasons_amended gOneVertex 1 2 (0 : Int) (0 : Int)
  have h2 := c9_error_reasons_amended gTwoIsolated 1 2 (0 : Int) (0 : Int)
  exact ⟨(h1.1 (by decide)).1, (h2.2.2.1 (by decide)).1, (h2.2.2.1 (by decide)).2⟩

/-- C10: self-loops are permitted.  For any graph holding vertex v with no
stored edge targeting v from v's own list, addEdge(v, v, p) succeeds; in the
resulting graph edgeInfo(v, v) returns p, the out-degree edgeCount(v) grew by
one, and edges() contains the pair (v, v). -/
theorem c10_self_loop_addEdge {V E : Type} (g : Digraph V E) (v : Int)
    (vert : DigraphVertex V E) (p : E)
    (hv : mapLookup g.info v = some vert)
    (hno : ∀ e ∈ vert.edges, (e.toVertex == v) = false) :
    ∃ g2, addEdge g v v p = .ok g2 ∧
      edgeInfo g2 v v = .ok p ∧
      edgeCountFrom g2 v = .ok ((vert.edges.length : Int) + 1) ∧
      (v, v) ∈ edgesAll g2 := by
  have hc : mapContains g.info v = true := mapContains_of_lookup hv
  have hout : outPairs g v = vert.edges.map (fun e => (v, e.toVertex)) := by
    simp [outPairs, hv]
  have hpm : pairMem (outPairs g v) (v, v) = false := by
    rw [hout]; exact pairMem_map_out_false hno
  refine ⟨⟨mapAdjust g.info v (fun u => ⟨u.vinfo, u.edges ++ [⟨v, v, p⟩]⟩)⟩, ?_, ?_, ?_, ?_⟩
  · simp [addEdge, hc, hpm]
  · have hl2 : mapLookup (mapAdjust g.info v (fun u => ⟨u.vinfo, u.edges ++ [⟨v, v, p⟩]⟩)) v
        = some ⟨vert.vinfo, vert.edges ++ [⟨v, v, p⟩]⟩ := mapLookup_mapAdjust_self _ hv
    have hc2 : mapContains (mapAdjust g.info v (fun u => ⟨u.vinfo, u.edges ++ [⟨v, v, p⟩]⟩)) v
        = true := by rw [mapContains_mapAdjust]; exact hc
    have hfn : vert.edges.find? (fun e => e.toVertex == v) = none :=
      List.find?_eq_none.mpr (fun x hx => by simp [hno x hx])
    simp [edgeInfo, hc2, hl2, outPairs, List.map_append, pairMem_append, pairMem,
      hfn, List.find?]
  · have hl2 : mapLookup (mapAdjust g.info v (fun u => ⟨u.vinfo, u.edges ++ [⟨v, v, p⟩]⟩)) v
        = some ⟨vert.vinfo, vert.edges ++ [⟨v, v, p⟩]⟩ := mapLookup_mapAdjust_self _ hv
    simp [edgeCountFrom, hl2]
  · have hl2 : mapLookup (mapAdjust g.info v (fun u => ⟨u.vinfo, u.edges ++ [⟨v, v, p⟩]⟩)) v
        = some ⟨vert.vinfo, vert.edges ++ [⟨v, v, p⟩]⟩ := mapLookup_mapAdjust_self _ hv
    exact mem_edgesOf_of_lookup hl2
      (List.mem_append_right _ (List.mem_singleton.mpr rfl))

/-- Concrete instance of the self-loop property on the one-vertex graph. -/
theorem c10_self_loop_witness :
    ∃ g2, addEdge gOneVertex 1 1 7 = .ok g2 ∧
      edgeInfo g2 1 1 = .ok 7 ∧
      edgeCountFrom g2 1 = .ok ((List.length ([] : List (DigraphEdge Int)) : Int) + 1) ∧
      (1, 1) ∈ edgesAll g2 :=
  c10_self_loop_addEdge gOneVertex 1 ⟨0, []⟩ 7 (by decide) (by decide)

end MapGraphs
